import Mathlib

/-!
# Verification of the HumanLoopML model-lifecycle and retraining pipeline

Shallow embedding of the core of the HumanLoopML repository:

* `src/training/retrain_with_feedback.py` — feedback loading, dataset
  combination, version resolution and the commit sequence of `main`;
* `src/api/main.py` — the serving layer: version resolution, lazy model
  loading, prediction and feedback submission;
* `src/evaluation/metrics.py` — `calculate_metrics` together with the
  documented semantics of the scikit-learn calls it delegates to.

Machine-level conventions: Python `int()` truncation on the feedback weight
is modelled on `ℚ`; JSON/joblib file contents are opaque blobs (`ℕ`);
on-disk directories are association lists keyed by version id.
-/

namespace HumanLoopML

/-- A Python runtime value appearing in a training-label position: the
original corpus labels are integers, while feedback labels are the raw
`human_label` JSON strings, and `combine_datasets` mixes the two lists. -/
inductive PyVal where
  | int : Int → PyVal
  | str : String → PyVal
deriving DecidableEq, Repr

/-- Python `int(x)` applied to a (rational-valued) float: truncation toward
zero. -/
def pyInt (q : ℚ) : ℤ :=
  if 0 ≤ q then ⌊q⌋ else -⌊-q⌋

/-- One entry of `data/feedback/feedback.json`, as written by
`submit_feedback` in `src/api/main.py` (lines 234-240). `human_label` is an
`Option` because `load_feedback` reads it with `entry.get('human_label',
None)`. -/
structure FeedbackEntry where
  text : String
  model_prediction : String
  human_label : Option String
  timestamp : String
  model_version : String
deriving DecidableEq, Repr

/-- `load_feedback` (src/training/retrain_with_feedback.py lines 39-66):
keeps `(text, human_label)` for every entry whose `text` is truthy
(non-empty) and whose `human_label` is not `None`; the label string is kept
verbatim (it enters the training-label list as a Python string). -/
def load_feedback (feedback_data : List FeedbackEntry) : List (String × PyVal) :=
  feedback_data.filterMap fun entry =>
    if entry.text ≠ "" then
      match entry.human_label with
      | some hl => some (entry.text, PyVal.str hl)
      | none => none
    else none

/-- `combine_datasets` (src/training/retrain_with_feedback.py lines
94-124): original texts/labels first, then each feedback pair appended
`int(feedback_weight)` times (`for _ in range(int(feedback_weight))`). -/
def combine_datasets (original_texts : List String) (original_labels : List PyVal)
    (feedback_samples : List (String × PyVal)) (feedback_weight : ℚ) :
    List String × List PyVal :=
  let reps := (pyInt feedback_weight).toNat
  (original_texts ++ feedback_samples.flatMap (fun p => List.replicate reps p.1),
   original_labels ++ feedback_samples.flatMap (fun p => List.replicate reps p.2))

/-- An opaque serialized artifact (a joblib/JSON file's content). -/
abbrev Blob := ℕ

/-- The persisted state the core reads and writes: the `models/` directory
(`model_v{n}.joblib`, `vectorizer_v{n}.joblib`, `current_version.txt`,
`label_names.json`), the feedback log `data/feedback/feedback.json`, and the
metrics directory `data/metrics/metrics_v{n}.json`. -/
structure Disk where
  models : List (ℕ × Blob)
  vectorizers : List (ℕ × Blob)
  pointer : Option ℕ
  labelNamesFile : Option (List String)
  feedback : List FeedbackEntry
  metrics : List (ℕ × Blob)
deriving DecidableEq, Repr

/-- The empty persisted state: nothing trained, nothing recorded. -/
def Disk.empty : Disk := ⟨[], [], none, none, [], []⟩

/-- Look a version id up in a directory listing (first match, as a
filesystem has at most one file per name). -/
def lookupVersion (dir : List (ℕ × Blob)) (v : ℕ) : Option Blob :=
  (dir.find? (fun p => p.1 = v)).map Prod.snd

/-- `get_current_model_version` in `src/api/main.py` (lines 72-90): return
the `current_version.txt` pointer when the file exists, otherwise the
maximum version id scanned from `model_v*.joblib` filenames, otherwise
`None`. -/
def get_current_model_version_api (disk : Disk) : Option ℕ :=
  match disk.pointer with
  | some v => some v
  | none => (disk.models.map Prod.fst).max?

/-- `get_current_model_version` in `src/training/retrain_with_feedback.py`
(lines 69-91): the maximum version id scanned from `model_v*.joblib`
filenames, or `0` when the directory is missing or holds none. It never
reads `current_version.txt`. -/
def get_current_model_version_retrain (disk : Disk) : ℕ :=
  ((disk.models.map Prod.fst).max?).getD 0

/-- The module-level globals of `src/api/main.py` (lines 44-47). -/
structure Globals where
  current_model : Option Blob
  current_vectorizer : Option Blob
  current_version : Option ℕ
  label_names : Option (List String)
deriving DecidableEq, Repr

/-- Fresh process state: no model loaded yet. -/
def Globals.init : Globals := ⟨none, none, none, none⟩

/-- The HTTP error outcomes of the serving layer relevant to the core
contract: `ModelNotAvailable` (500, "Model not available"), `EmptyText`
(400, "Text cannot be empty"), `EmptyLabel` (400, "Human label cannot be
empty"), `PredictionError` (500), `MetricsNotFound` (404). -/
inductive ApiError where
  | ModelNotAvailable
  | EmptyText
  | EmptyLabel
  | PredictionError
  | MetricsNotFound
deriving DecidableEq, Repr

/-- Whitespace characters removed by Python `str.strip()`. -/
def isSpaceChar (c : Char) : Bool :=
  c = ' ' || c = '\t' || c = '\n' || c = '\r' || c = '\x0b' || c = '\x0c'

/-- Python `str.strip()`: drop leading and trailing whitespace. -/
def pyStrip (s : String) : String :=
  ⟨((s.data.dropWhile isSpaceChar).reverse.dropWhile isSpaceChar).reverse⟩

/-- Python blank test used by the API: `not text or not text.strip()`. -/
def isBlank (s : String) : Bool :=
  s = "" || pyStrip s = ""

/-- `load_model` (src/api/main.py lines 93-120) called with
`version=None`: resolve the current version (error if `None`), require the
model file to exist, load model then vectorizer (the latter errors if its
file is missing), and set the globals, reading `label_names.json` with a
fixed four-label fallback. -/
def load_model (disk : Disk) : Except Unit Globals :=
  match get_current_model_version_api disk with
  | none => .error ()
  | some version =>
    match lookupVersion disk.models version, lookupVersion disk.vectorizers version with
    | some m, some vec =>
      .ok ⟨some m, some vec, some version,
        some (disk.labelNamesFile.getD ["World", "Sports", "Business", "Sci/Tech"])⟩
    | _, _ => .error ()

/-- `get_label_name` (src/api/main.py lines 123-127): the schema entry at
`label_id` when `label_names` is truthy and the index is in range, else the
placeholder `Label_{id}`. -/
def get_label_name (label_names : Option (List String)) (label_id : ℕ) : String :=
  match label_names with
  | some names =>
    if h : names ≠ [] ∧ label_id < names.length then names.get ⟨label_id, h.2⟩
    else "Label_" ++ toString label_id
  | none => "Label_" ++ toString label_id

/-- Successful response of `POST /predict`. -/
structure PredictResponse where
  prediction : String
  confidence : ℚ
  model_version : Option ℕ
deriving DecidableEq, Repr

/-- The inference part of `predict` (src/api/main.py lines 189-207), after
the lazy load and the blank check: vectorize, predict, take
`prediction_proba[prediction_id]` as confidence (an out-of-range index is
an exception, surfaced as a 500). `runModel` is the external classifier
capability: from the loaded artifacts and the text it yields the predicted
class id and the probability vector. -/
def run_inference (runModel : Blob → Blob → String → ℕ × List ℚ)
    (g : Globals) (text : String) : Except ApiError PredictResponse :=
  match g.current_model, g.current_vectorizer with
  | some m, some vec =>
    let res := runModel m vec text
    match res.2.get? res.1 with
    | some conf => .ok ⟨get_label_name g.label_names res.1, conf, g.current_version⟩
    | none => .error .PredictionError
  | _, _ => .error .PredictionError

/-- `predict` (src/api/main.py lines 166-207). The third component records
whether the lazy `load_model` step was executed during the request. Control
flow as in the source: first the lazy load when either global is `None`
(failure there is the 500 "Model not available"), THEN the blank-text
check, then inference. -/
def predict (runModel : Blob → Blob → String → ℕ × List ℚ)
    (disk : Disk) (g : Globals) (text : String) :
    Except ApiError PredictResponse × Globals × Bool :=
  if g.current_model.isNone || g.current_vectorizer.isNone then
    match load_model disk with
    | .error _ => (.error .ModelNotAvailable, g, true)
    | .ok g' =>
      if isBlank text then (.error .EmptyText, g', true)
      else (run_inference runModel g' text, g', true)
  else
    if isBlank text then (.error .EmptyText, g, false)
    else (run_inference runModel g text, g, false)

/-- Request body of `POST /feedback`. -/
structure FeedbackRequest where
  text : String
  model_prediction : String
  human_label : String
deriving DecidableEq, Repr

/-- `submit_feedback` (src/api/main.py lines 210-263): reject blank `text`
(`not text or not text.strip()`); reject `human_label` only when falsy
(`not request.human_label` — no `.strip()` here); resolve the current
version, defaulting to 1 when none; stamp `now` as the timestamp; append
the entry to the feedback log and rewrite it. Returns the stamped entry. -/
def submit_feedback (now : String) (disk : Disk) (request : FeedbackRequest) :
    Except ApiError FeedbackEntry × Disk :=
  if isBlank request.text then (.error .EmptyText, disk)
  else if request.human_label = "" then (.error .EmptyLabel, disk)
  else
    let version := (get_current_model_version_api disk).getD 1
    let entry : FeedbackEntry :=
      ⟨request.text, request.model_prediction, some request.human_label, now,
        "v" ++ toString version⟩
    (.ok entry, { disk with feedback := disk.feedback ++ [entry] })

/-- The stages of `main` in `src/training/retrain_with_feedback.py`
(lines 192-281), in source order. `register` covers the two `joblib.dump`
calls (lines 250-251), `persistMetrics` the `save_metrics` call (line 258),
`promote` the write of `current_version.txt` (lines 261-263). -/
inductive Stage where
  | resolve
  | loadData
  | loadFeedback
  | combine
  | fitModel
  | register
  | persistMetrics
  | promote
deriving DecidableEq, Repr

/-- Outcome of a retraining run: the no-baseline early return (line
211-213), an exception raised at some stage (Python aborts the run there),
or completion with the new version id. -/
inductive MainOutcome where
  | noBaseline
  | aborted : Stage → MainOutcome
  | completed : ℕ → MainOutcome
deriving DecidableEq, Repr

/-- Environment of a retraining run: the external collaborators (corpus,
fitting) summarized by their results, the CLI weight, and a fault
injection describing which stage (if any) raises. A stage that raises does
so before completing any of its writes. -/
structure MainEnv where
  train_texts : List String
  train_labels : List Int
  newModel : Blob
  newVec : Blob
  newMetrics : Blob
  feedback_weight : ℚ
  failAt : Stage → Bool

/-- The `joblib.dump` pair of lines 250-251: write the two artifact files
for `next_version`. A plain file write: an entry with the same name is
replaced, otherwise the file is created. -/
def register_step (next : ℕ) (m vec : Blob) (disk : Disk) : Disk :=
  { disk with
    models := (next, m) :: disk.models.filter (fun p => p.1 ≠ next),
    vectorizers := (next, vec) :: disk.vectorizers.filter (fun p => p.1 ≠ next) }

/-- `save_metrics` at line 258: write `metrics_v{next}.json`. -/
def persist_metrics_step (next : ℕ) (rec : Blob) (disk : Disk) : Disk :=
  { disk with metrics := (next, rec) :: disk.metrics.filter (fun p => p.1 ≠ next) }

/-- Lines 261-263: overwrite `current_version.txt` with `next_version`. -/
def promote_step (next : ℕ) (disk : Disk) : Disk :=
  { disk with pointer := some next }

/-- `main` (src/training/retrain_with_feedback.py lines 192-281) as a
function of the persisted state, under the fault injection of `env`:
resolve the current version by directory scan (no pointer read), return
early if it is 0; run the pure stages; then dump the artifacts, save the
metrics, and write the pointer, each skipped from the first raising stage
on. No conflict check guards `next_version`. -/
def main_run (env : MainEnv) (disk : Disk) : Disk × MainOutcome :=
  if env.failAt .resolve then (disk, .aborted .resolve)
  else if get_current_model_version_retrain disk = 0 then (disk, .noBaseline)
  else if env.failAt .loadData then (disk, .aborted .loadData)
  else if env.failAt .loadFeedback then (disk, .aborted .loadFeedback)
  else if env.failAt .combine then (disk, .aborted .combine)
  else if env.failAt .fitModel then (disk, .aborted .fitModel)
  else if env.failAt .register then (disk, .aborted .register)
  else if env.failAt .persistMetrics then
    (register_step (get_current_model_version_retrain disk + 1)
      env.newModel env.newVec disk, .aborted .persistMetrics)
  else if env.failAt .promote then
    (persist_metrics_step (get_current_model_version_retrain disk + 1)
      env.newMetrics
      (register_step (get_current_model_version_retrain disk + 1)
        env.newModel env.newVec disk), .aborted .promote)
  else
    (promote_step (get_current_model_version_retrain disk + 1)
      (persist_metrics_step (get_current_model_version_retrain disk + 1)
        env.newMetrics
        (register_step (get_current_model_version_retrain disk + 1)
          env.newModel env.newVec disk)),
     .completed (get_current_model_version_retrain disk + 1))

/-- Number of samples with true label `i` and predicted label `j`. -/
def pairCount (y_true y_pred : List ℤ) (i j : ℤ) : ℕ :=
  ((y_true.zip y_pred).filter (fun p => p.1 = i && p.2 = j)).length

/-- Number of occurrences of `x` in `l`. -/
def labelCount (l : List ℤ) (x : ℤ) : ℕ :=
  (l.filter (fun y => y = x)).length

/-- `sklearn.metrics.confusion_matrix(y_true, y_pred, labels=labels)`:
cell `(i, j)` counts the samples whose true label is `labels[i]` and whose
predicted label is `labels[j]`; a sample whose true or predicted label is
outside `labels` falls in no cell. -/
def sk_confusion_matrix (y_true y_pred : List ℤ) (labels : List ℤ) :
    List (List ℕ) :=
  labels.map (fun i => labels.map (fun j => pairCount y_true y_pred i j))

/-- Per-label precision as computed by
`precision_recall_fscore_support(..., zero_division=0)`:
`tp / (tp + fp)`, i.e. true positives over predicted-positive count, and 0
when nothing was predicted as this label. -/
def sk_precision (y_true y_pred : List ℤ) (i : ℤ) : ℚ :=
  if labelCount y_pred i = 0 then 0
  else (pairCount y_true y_pred i i : ℚ) / (labelCount y_pred i : ℚ)

/-- Per-label recall with `zero_division=0`: `tp / support`, 0 at zero
support. -/
def sk_recall (y_true y_pred : List ℤ) (i : ℤ) : ℚ :=
  if labelCount y_true i = 0 then 0
  else (pairCount y_true y_pred i i : ℚ) / (labelCount y_true i : ℚ)

/-- Per-label F1 with `zero_division=0`: harmonic mean of precision and
recall, 0 when both vanish. -/
def sk_f1 (y_true y_pred : List ℤ) (i : ℤ) : ℚ :=
  let p := sk_precision y_true y_pred i
  let r := sk_recall y_true y_pred i
  if p + r = 0 then 0 else 2 * p * r / (p + r)

/-- `accuracy_score`: fraction of positions where the labels agree. -/
def sk_accuracy (y_true y_pred : List ℤ) : ℚ :=
  if y_true.length = 0 then 0
  else (((y_true.zip y_pred).filter (fun p => p.1 = p.2)).length : ℚ) / (y_true.length : ℚ)

/-- `f1_score(..., average='macro')` without an explicit `labels`
argument: the unweighted mean of per-label F1 over the labels occurring in
`y_true` or `y_pred` (the mean does not depend on their order). -/
def sk_f1_macro (y_true y_pred : List ℤ) : ℚ :=
  let present := (y_true ++ y_pred).dedup
  if present.length = 0 then 0
  else (present.map (sk_f1 y_true y_pred)).sum / (present.length : ℚ)

/-- `f1_score(..., average='weighted')`: per-label F1 over the occurring
labels, weighted by support. -/
def sk_f1_weighted (y_true y_pred : List ℤ) : ℚ :=
  let present := (y_true ++ y_pred).dedup
  let totalSupport := (present.map (labelCount y_true)).sum
  if totalSupport = 0 then 0
  else (present.map (fun i => (labelCount y_true i : ℚ) * sk_f1 y_true y_pred i)).sum
    / (totalSupport : ℚ)

/-- Per-class block of the metrics dictionary; `rcl` embeds the source's
`recall` key (that word is reserved here). -/
structure PerClassMetrics where
  precision : ℚ
  rcl : ℚ
  f1 : ℚ
  support : ℕ
deriving DecidableEq, Repr

/-- The dictionary returned by `calculate_metrics`
(src/evaluation/metrics.py lines 46-53). `per_class` keeps the dict's
insertion order: one `(label name, metrics)` entry per schema position. -/
structure Metrics where
  accuracy : ℚ
  f1_macro : ℚ
  f1_weighted : ℚ
  per_class : List (String × PerClassMetrics)
  confusion_matrix : List (List ℕ)
  label_names : List String
deriving DecidableEq, Repr

/-- `calculate_metrics` (src/evaluation/metrics.py lines 12-55): overall
scores, then per-class precision/recall/F1/support and the confusion
matrix both restricted to `labels=range(len(label_names))` with
`zero_division=0`, keyed per schema position. -/
def calculate_metrics (y_true y_pred : List ℤ) (label_names : List String) :
    Metrics :=
  let labels : List ℤ := (List.range label_names.length).map Int.ofNat
  { accuracy := sk_accuracy y_true y_pred
    f1_macro := sk_f1_macro y_true y_pred
    f1_weighted := sk_f1_weighted y_true y_pred
    per_class := label_names.enum.map (fun p =>
      (p.2, ⟨sk_precision y_true y_pred (p.1 : ℤ),
             sk_recall y_true y_pred (p.1 : ℤ),
             sk_f1 y_true y_pred (p.1 : ℤ),
             labelCount y_true (p.1 : ℤ)⟩))
    confusion_matrix := sk_confusion_matrix y_true y_pred labels
    label_names := label_names }

/-- The label list `range(len(label_names))` that `calculate_metrics`
passes to scikit-learn, as integers. -/
def schemaLabels (n : ℕ) : List ℤ :=
  (List.range n).map Int.ofNat

/-- `main` of `src/training/train_baseline.py` (lines 118-143): save the
baseline model and vectorizer as version 1 (`save_model`), save its metrics
(`save_metrics`), and write `label_names.json`. The baseline never writes
`current_version.txt`: it does not promote. -/
def baseline_save (m vec metricsBlob : Blob) (names : List String)
    (disk : Disk) : Disk :=
  { disk with
    models := (1, m) :: disk.models.filter (fun p => p.1 ≠ 1),
    vectorizers := (1, vec) :: disk.vectorizers.filter (fun p => p.1 ≠ 1),
    metrics := (1, metricsBlob) :: disk.metrics.filter (fun p => p.1 ≠ 1),
    labelNamesFile := some names }

theorem pyInt_natCast (w : ℕ) : pyInt (w : ℚ) = (w : ℤ) := by
  simp [pyInt]

theorem pyInt_of_nonneg {q : ℚ} (hq : 0 ≤ q) : pyInt q = ⌊q⌋ := by
  simp [pyInt, hq]

theorem length_flatMap_replicate {α β : Type} (l : List α) (w : ℕ) (f : α → β) :
    (l.flatMap (fun x => List.replicate w (f x))).length = w * l.length := by
  induction l with
  | nil => simp
  | cons hd tl ih =>
    simp only [List.flatMap_cons, List.length_append, List.length_replicate, ih,
      List.length_cons]
    ring

theorem le_foldl_max_init (l : List ℕ) : ∀ b, b ≤ l.foldl max b := by
  induction l with
  | nil => intro b; exact le_rfl
  | cons x xs ih => intro b; exact le_trans (le_max_left b x) (ih (max b x))

theorem mem_le_foldl_max (xs : List ℕ) : ∀ b a, a ∈ xs → a ≤ xs.foldl max b := by
  induction xs with
  | nil => intro b a ha; cases ha
  | cons y ys ih =>
    intro b a ha
    rcases List.mem_cons.mp ha with rfl | h
    · exact le_trans (le_max_right b a) (le_foldl_max_init ys (max b a))
    · exact ih (max b y) a h

theorem mem_le_max_getD {l : List ℕ} {a : ℕ} (h : a ∈ l) :
    a ≤ (l.max?).getD 0 := by
  cases l with
  | nil => cases h
  | cons x xs =>
    rw [show (x :: xs).max? = some (xs.foldl max x) from rfl, Option.getD_some]
    rcases List.mem_cons.mp h with rfl | hmem
    · exact le_foldl_max_init xs a
    · exact mem_le_foldl_max xs x a hmem

theorem find?_filter_ne (l : List (ℕ × Blob)) (next v : ℕ) (h : v ≠ next) :
    (l.filter (fun p => p.1 ≠ next)).find? (fun p => p.1 = v) =
      l.find? (fun p => p.1 = v) := by
  induction l with
  | nil => rfl
  | cons hd tl ih =>
    by_cases hh : hd.1 = next
    · have hv : ¬ hd.1 = v := by rw [hh]; exact fun hc => h hc.symm
      have h1 : (decide (hd.1 ≠ next)) = false := by simp [hh]
      have h2 : (decide (hd.1 = v)) = false := by simp [hv]
      simp only [List.filter_cons, h1, if_false, List.find?_cons, h2]
      exact ih
    · by_cases hv : hd.1 = v
      · have h1 : (decide (hd.1 ≠ next)) = true := by simp [hh]
        have h2 : (decide (hd.1 = v)) = true := by simp [hv]
        simp only [List.filter_cons, h1, if_true, List.find?_cons, h2]
      · have h1 : (decide (hd.1 ≠ next)) = true := by simp [hh]
        have h2 : (decide (hd.1 = v)) = false := by simp [hv]
        simp only [List.filter_cons, h1, if_true, List.find?_cons, h2]
        exact ih

theorem lookupVersion_write_ne (l : List (ℕ × Blob)) (next v : ℕ) (b : Blob)
    (h : v ≠ next) :
    lookupVersion ((next, b) :: l.filter (fun p => p.1 ≠ next)) v =
      lookupVersion l v := by
  have hnv : ¬ next = v := fun hc => h hc.symm
  unfold lookupVersion
  rw [show ((next, b) :: l.filter (fun p => p.1 ≠ next)).find?
        (fun p => p.1 = v) =
      (l.filter (fun p => p.1 ≠ next)).find? (fun p => p.1 = v) by
    simp [List.find?_cons, hnv]]
  rw [find?_filter_ne l next v h]

theorem lookupVersion_write_self (l : List (ℕ × Blob)) (next : ℕ) (b : Blob) :
    lookupVersion ((next, b) :: l.filter (fun p => p.1 ≠ next)) next = some b := by
  unfold lookupVersion
  simp [List.find?_cons]

/-- C6: for a non-negative integer `feedback_weight`, the combined training
set is the original texts/labels followed by each feedback pair repeated
`feedback_weight` times, so it has `len(original) + feedback_weight *
len(feedback)` rows; weight 0 returns exactly the original set, and 2
feedback records with weight 3 on a 4-row corpus give 4 + 2*3 = 10 rows. -/
theorem combine_datasets_weighted_concat :
    (∀ (ts : List String) (ls : List PyVal) (fb : List (String × PyVal)) (w : ℕ),
      combine_datasets ts ls fb (w : ℚ) =
        (ts ++ fb.flatMap (fun p => List.replicate w p.1),
         ls ++ fb.flatMap (fun p => List.replicate w p.2)) ∧
      (combine_datasets ts ls fb (w : ℚ)).1.length = ts.length + w * fb.length ∧
      (combine_datasets ts ls fb (w : ℚ)).2.length = ls.length + w * fb.length ∧
      combine_datasets ts ls fb ((0 : ℕ) : ℚ) = (ts, ls)) ∧
    (combine_datasets ["a", "b", "c", "d"]
        [PyVal.int 0, PyVal.int 1, PyVal.int 2, PyVal.int 3]
        [("text A", PyVal.str "Sports"), ("text B", PyVal.str "World")]
        3).1.length = 4 + 2 * 3 := by
  constructor
  · intro ts ls fb w
    have hcast : ((pyInt (w : ℚ)).toNat) = w := by
      rw [pyInt_natCast]; exact Int.toNat_natCast w
    refine ⟨?_, ?_, ?_, ?_⟩
    · simp only [combine_datasets, hcast]
    · simp only [combine_datasets, hcast, List.length_append,
        length_flatMap_replicate]
    · simp only [combine_datasets, hcast, List.length_append,
        length_flatMap_replicate]
    · have hcast0 : ((pyInt (0 : ℚ)).toNat) = 0 := by
        norm_num [pyInt]
      simp [combine_datasets, hcast0]
  · decide

/-- C10: `combine_datasets` truncates `feedback_weight` toward zero via
Python `int()`: a non-negative rational weight `q` contributes exactly
`⌊q⌋` copies of each feedback pair, so any weight below 1 (such as 1/2)
contributes no feedback rows at all. -/
theorem combine_datasets_truncates_weight (q : ℚ) (hq : 0 ≤ q)
    (ts : List String) (ls : List PyVal) (fb : List (String × PyVal)) :
    combine_datasets ts ls fb q =
      (ts ++ fb.flatMap (fun p => List.replicate (⌊q⌋).toNat p.1),
       ls ++ fb.flatMap (fun p => List.replicate (⌊q⌋).toNat p.2)) ∧
    (combine_datasets ts ls fb q).1.length = ts.length + (⌊q⌋).toNat * fb.length ∧
    (q < 1 → combine_datasets ts ls fb q = (ts, ls)) := by
  have hfloor : pyInt q = ⌊q⌋ := pyInt_of_nonneg hq
  refine ⟨?_, ?_, ?_⟩
  · simp only [combine_datasets, hfloor]
  · simp only [combine_datasets, hfloor, List.length_append,
      length_flatMap_replicate]
  · intro hlt
    have h0 : ⌊q⌋ = 0 := Int.floor_eq_zero_iff.mpr ⟨hq, hlt⟩
    simp [combine_datasets, hfloor, h0]

/-- Witness for `combine_datasets_truncates_weight` at weight 1/2. -/
theorem combine_datasets_truncates_weight_witness :
    combine_datasets ["a"] [PyVal.int 0] [("b", PyVal.int 1)] (1 / 2 : ℚ) =
      (["a"], [PyVal.int 0]) :=
  (combine_datasets_truncates_weight (1 / 2) (by norm_num) ["a"] [PyVal.int 0]
    [("b", PyVal.int 1)]).2.2 (by norm_num)

/-- C2 counterexample: a prediction request with empty text, sent to a
fresh process (no model loaded in the globals): with an empty registry the
request fails with `ModelNotAvailable`, not `EmptyInput`, and the lazy
model-load step was executed; with version 1 registered the result is
`EmptyText` but a model load was still executed first. -/
theorem predict_blank_text_cex :
    (predict (fun _ _ _ => (0, [1])) Disk.empty Globals.init "").1 =
        .error .ModelNotAvailable ∧
    (predict (fun _ _ _ => (0, [1])) Disk.empty Globals.init "").2.2 = true ∧
    (predict (fun _ _ _ => (0, [1])) ⟨[(1, 5)], [(1, 6)], none, none, [], []⟩
        Globals.init "").1 = .error .EmptyText ∧
    (predict (fun _ _ _ => (0, [1])) ⟨[(1, 5)], [(1, 6)], none, none, [], []⟩
        Globals.init "").2.2 = true := by
  refine ⟨rfl, rfl, rfl, rfl⟩

/-- C2 (amended): a blank-text prediction request always fails, but the
blank check runs only after the lazy model load: with a model already
loaded in the globals, the request fails `EmptyText` with no load; with no
model loaded, `load_model` is executed first — the request then fails
`EmptyText` if the load succeeds, and `ModelNotAvailable` (not
`EmptyInput`) if the load fails. -/
theorem predict_blank_text_after_lazy_load
    (runModel : Blob → Blob → String → ℕ × List ℚ) (disk : Disk)
    (g : Globals) (text : String) (hb : isBlank text = true) :
    (∀ r, (predict runModel disk g text).1 ≠ .ok r) ∧
    (g.current_model.isSome ∧ g.current_vectorizer.isSome →
      predict runModel disk g text = (.error .EmptyText, g, false)) ∧
    ((g.current_model.isNone ∨ g.current_vectorizer.isNone) →
      (predict runModel disk g text).2.2 = true ∧
      (∀ g', load_model disk = .ok g' →
        (predict runModel disk g text).1 = .error .EmptyText) ∧
      (load_model disk = .error () →
        (predict runModel disk g text).1 = .error .ModelNotAvailable)) := by
  by_cases hneed : g.current_model.isNone || g.current_vectorizer.isNone
  · cases hload : load_model disk with
    | error u =>
      refine ⟨?_, ?_, ?_⟩
      · intro r
        simp [predict, hneed, hload]
      · rintro ⟨hm, hv⟩
        rw [Option.isSome_iff_ne_none] at hm hv
        simp [Option.isNone_iff_eq_none, hm, hv] at hneed
      · intro _
        refine ⟨by simp [predict, hneed, hload], ?_, ?_⟩
        · intro g' hg'
          exact Except.noConfusion hg'
        · intro _
          simp [predict, hneed, hload]
    | ok g' =>
      refine ⟨?_, ?_, ?_⟩
      · intro r
        simp [predict, hneed, hload, hb]
      · rintro ⟨hm, hv⟩
        rw [Option.isSome_iff_ne_none] at hm hv
        simp [Option.isNone_iff_eq_none, hm, hv] at hneed
      · intro _
        refine ⟨by simp [predict, hneed, hload, hb], ?_, ?_⟩
        · intro g'' _
          simp [predict, hneed, hload, hb]
        · intro hcontra
          exact Except.noConfusion hcontra
  · refine ⟨?_, ?_, ?_⟩
    · intro r
      simp [predict, hneed, hb]
    · intro _
      simp [predict, hneed, hb]
    · intro hnone
      exfalso
      rcases hnone with h | h <;>
        simp [Option.isNone_iff_eq_none.mp h] at hneed

/-- Witness for `predict_blank_text_after_lazy_load`: empty text against a
registry holding version 1, fresh globals. -/
theorem predict_blank_text_after_lazy_load_witness :
    (predict (fun _ _ _ => (0, [1])) ⟨[(1, 5)], [(1, 6)], none, none, [], []⟩
        Globals.init "").2.2 = true ∧
    (predict (fun _ _ _ => (0, [1])) ⟨[(1, 5)], [(1, 6)], none, none, [], []⟩
        Globals.init "").1 = .error .EmptyText := by
  have h := predict_blank_text_after_lazy_load (fun _ _ _ => (0, [1]))
    ⟨[(1, 5)], [(1, 6)], none, none, [], []⟩ Globals.init "" rfl
  have h3 := h.2.2 (Or.inl rfl)
  exact ⟨h3.1, h3.2.1
    ⟨some 5, some 6, some 1, some ["World", "Sports", "Business", "Sci/Tech"]⟩
    rfl⟩

/-- C3 counterexample: a feedback submission whose `human_label` is the
whitespace-only string " " is accepted and stored (the label check is
`not request.human_label`, with no trimming): the stored sequence grows by
one record carrying the whitespace label. -/
theorem submit_feedback_whitespace_label_cex :
    submit_feedback "t0" Disk.empty ⟨"hello", "World", " "⟩ =
      (.ok ⟨"hello", "World", some " ", "t0", "v1"⟩,
       ⟨[], [], none, none, [⟨"hello", "World", some " ", "t0", "v1"⟩], []⟩) := by
  rfl

/-- C3 (amended): `append` rejects blank `text` (empty or whitespace-only)
and rejects `human_label` only when it is the empty string — whitespace-only
labels pass. On every rejection the store (indeed the whole persisted
state) is unchanged and nothing is returned; otherwise exactly the stamped
record is appended after the prior entries. -/
theorem submit_feedback_validation (now : String) (disk : Disk)
    (req : FeedbackRequest) :
    (isBlank req.text = true ∨ req.human_label = "" →
      (submit_feedback now disk req).2 = disk ∧
      ∀ e, (submit_feedback now disk req).1 ≠ .ok e) ∧
    (isBlank req.text = false → req.human_label ≠ "" →
      submit_feedback now disk req =
        (.ok ⟨req.text, req.model_prediction, some req.human_label, now,
            "v" ++ toString ((get_current_model_version_api disk).getD 1)⟩,
         { disk with feedback := disk.feedback ++
            [⟨req.text, req.model_prediction, some req.human_label, now,
              "v" ++ toString ((get_current_model_version_api disk).getD 1)⟩] })) := by
  constructor
  · rintro (hb | hb)
    · exact ⟨by simp [submit_feedback, hb], fun e => by simp [submit_feedback, hb]⟩
    · by_cases ht : isBlank req.text
      · exact ⟨by simp [submit_feedback, ht], fun e => by simp [submit_feedback, ht]⟩
      · exact ⟨by simp [submit_feedback, ht, hb],
          fun e => by simp [submit_feedback, ht, hb]⟩
  · intro ht hl
    simp [submit_feedback, ht, hl]

/-- Witness for `submit_feedback_validation`: a whitespace-only `text` is
rejected with the store unchanged, and a whitespace-only `human_label` is
accepted. -/
theorem submit_feedback_validation_witness :
    (submit_feedback "t0" Disk.empty ⟨"  ", "World", "Sports"⟩).2 = Disk.empty ∧
    submit_feedback "t0" Disk.empty ⟨"hello", "World", " "⟩ =
      (.ok ⟨"hello", "World", some " ", "t0", "v1"⟩,
       { Disk.empty with feedback := Disk.empty.feedback ++
          [⟨"hello", "World", some " ", "t0", "v1"⟩] }) :=
  ⟨((submit_feedback_validation "t0" Disk.empty ⟨"  ", "World", "Sports"⟩).1
      (Or.inl (by decide))).1,
   by
    have h := (submit_feedback_validation "t0" Disk.empty
      ⟨"hello", "World", " "⟩).2 (by decide) (by decide)
    rw [h]
    have hv : "v" ++ toString ((get_current_model_version_api Disk.empty).getD 1)
        = "v1" := by decide
    rw [hv]⟩

/-- C9: feedback submitted while the registry is completely empty (no
pointer, no artifacts) is accepted, and the recorded source model version
defaults to version 1 (`"v1"`); the record is stored, not rejected. -/
theorem submit_feedback_empty_registry_defaults_v1 (now : String)
    (disk : Disk) (req : FeedbackRequest) (hp : disk.pointer = none)
    (hm : disk.models = []) (ht : isBlank req.text = false)
    (hl : req.human_label ≠ "") :
    submit_feedback now disk req =
      (.ok ⟨req.text, req.model_prediction, some req.human_label, now, "v1"⟩,
       { disk with feedback := disk.feedback ++
          [⟨req.text, req.model_prediction, some req.human_label, now,
            "v1"⟩] }) := by
  have hres : get_current_model_version_api disk = none := by
    simp [get_current_model_version_api, hp, hm]
  have hv : "v" ++ toString (1 : ℕ) = "v1" := by decide
  simp [submit_feedback, ht, hl, hres, hv]

/-- Witness for `submit_feedback_empty_registry_defaults_v1`. -/
theorem submit_feedback_empty_registry_defaults_v1_witness :
    submit_feedback "t0" Disk.empty ⟨"hello", "World", "Sports"⟩ =
      (.ok ⟨"hello", "World", some "Sports", "t0", "v1"⟩,
       { Disk.empty with feedback := Disk.empty.feedback ++
          [⟨"hello", "World", some "Sports", "t0", "v1"⟩] }) :=
  submit_feedback_empty_registry_defaults_v1 "t0" Disk.empty
    ⟨"hello", "World", "Sports"⟩ rfl rfl (by decide) (by decide)

/-- C1 counterexample: a feedback pair whose `human_label` ("Gibberish")
is not in the four-label schema is not rejected — `load_feedback` keeps it
verbatim, `combine_datasets` appends it to the training labels as the raw
string, which is not the label id of any schema position, and no
`UnknownLabel` failure exists anywhere on this path. -/
theorem load_feedback_unknown_label_cex :
    load_feedback [⟨"some text", "World", some "Gibberish", "t0", "v1"⟩] =
      [("some text", PyVal.str "Gibberish")] ∧
    (combine_datasets ["orig"] [PyVal.int 0]
        (load_feedback [⟨"some text", "World", some "Gibberish", "t0", "v1"⟩])
        1).2 = [PyVal.int 0, PyVal.str "Gibberish"] ∧
    (∀ i : Fin 4, PyVal.str "Gibberish" ≠ PyVal.int (i : ℤ)) := by
  refine ⟨by decide, ?_, by decide⟩
  have h1 : (pyInt (1 : ℚ)).toNat = 1 := by norm_num [pyInt]
  simp [combine_datasets, load_feedback, h1]

/-- C1 (amended): retraining performs no schema lookup on feedback labels:
every feedback entry with non-empty `text` and a present `human_label` —
whether or not that label is in the schema — is kept by `load_feedback`
and its label string enters the combined training labels verbatim whenever
`feedback_weight ≥ 1`; there is no `UnknownLabel` failure. -/
theorem feedback_label_added_verbatim (entries : List FeedbackEntry)
    (e : FeedbackEntry) (hl : String) (he : e ∈ entries)
    (ht : e.text ≠ "") (hh : e.human_label = some hl)
    (ts : List String) (ls : List PyVal) (w : ℕ) (hw : 1 ≤ w) :
    (e.text, PyVal.str hl) ∈ load_feedback entries ∧
    PyVal.str hl ∈ (combine_datasets ts ls (load_feedback entries) (w : ℚ)).2 := by
  have hmem : (e.text, PyVal.str hl) ∈ load_feedback entries := by
    unfold load_feedback
    exact List.mem_filterMap.mpr ⟨e, he, by simp [ht, hh]⟩
  refine ⟨hmem, ?_⟩
  have hcast : ((pyInt (w : ℚ)).toNat) = w := by
    rw [pyInt_natCast]; exact Int.toNat_natCast w
  simp only [combine_datasets, hcast, List.mem_append]
  right
  exact List.mem_flatMap.mpr ⟨(e.text, PyVal.str hl), hmem,
    List.mem_replicate.mpr ⟨by omega, rfl⟩⟩

/-- Witness for `feedback_label_added_verbatim`: the out-of-schema label
"Gibberish" lands in the combined labels. -/
theorem feedback_label_added_verbatim_witness :
    ("some text", PyVal.str "Gibberish") ∈
      load_feedback [⟨"some text", "World", some "Gibberish", "t0", "v1"⟩] ∧
    PyVal.str "Gibberish" ∈
      (combine_datasets ["orig"] [PyVal.int 0]
        (load_feedback [⟨"some text", "World", some "Gibberish", "t0", "v1"⟩])
        ((1 : ℕ) : ℚ)).2 :=
  feedback_label_added_verbatim
    [⟨"some text", "World", some "Gibberish", "t0", "v1"⟩]
    ⟨"some text", "World", some "Gibberish", "t0", "v1"⟩ "Gibberish"
    (List.mem_singleton.mpr rfl) (by decide) rfl ["orig"] [PyVal.int 0] 1
    le_rfl

/-- C4 counterexample: with version 1 registered (model blob 7, vectorizer
blob 8), writing version 1's artifact files again (blobs 9, 10) does not
fail — there is no `VersionConflict` check anywhere — and afterwards
loading version 1 yields the new blobs: the original artifacts were
silently overwritten. -/
theorem register_existing_version_overwrites_cex :
    register_step 1 9 10 ⟨[(1, 7)], [(1, 8)], some 1, none, [], []⟩ =
      ⟨[(1, 9)], [(1, 10)], some 1, none, [], []⟩ ∧
    lookupVersion (⟨[(1, 7)], [(1, 8)], some 1, none, [], []⟩ : Disk).models 1 =
      some 7 ∧
    lookupVersion
      (register_step 1 9 10 ⟨[(1, 7)], [(1, 8)], some 1, none, [], []⟩).models 1 =
      some 9 := by
  refine ⟨?_, rfl, rfl⟩
  simp [register_step]

/-- C4 (amended): the artifact write carries no `VersionConflict` check and
silently overwrites files for an existing id; a retraining run, however,
always writes artifacts for `max discovered version + 1`, an id with no
existing model artifact, so the run leaves every previously registered
version's model and vectorizer artifacts loadable and unchanged. -/
theorem main_run_preserves_registered_artifacts (env : MainEnv) (disk : Disk)
    (v : ℕ) (hv : v ∈ disk.models.map Prod.fst) :
    get_current_model_version_retrain disk + 1 ∉ disk.models.map Prod.fst ∧
    lookupVersion ((main_run env disk).1).models v =
      lookupVersion disk.models v ∧
    lookupVersion ((main_run env disk).1).vectorizers v =
      lookupVersion disk.vectorizers v := by
  have hle : ∀ a ∈ disk.models.map Prod.fst,
      a ≤ get_current_model_version_retrain disk := fun a ha =>
    mem_le_max_getD ha
  have hfresh : get_current_model_version_retrain disk + 1 ∉
      disk.models.map Prod.fst := fun hc => by
    have := hle _ hc
    omega
  have hvne : v ≠ get_current_model_version_retrain disk + 1 := by
    have := hle v hv
    omega
  refine ⟨hfresh, ?_⟩
  unfold main_run
  split_ifs with h1 h0 h2 h3 h4 h5 h6 h7 h8
  · exact ⟨rfl, rfl⟩
  · exact ⟨rfl, rfl⟩
  · exact ⟨rfl, rfl⟩
  · exact ⟨rfl, rfl⟩
  · exact ⟨rfl, rfl⟩
  · exact ⟨rfl, rfl⟩
  · exact ⟨rfl, rfl⟩
  · exact ⟨lookupVersion_write_ne _ _ _ _ hvne,
      lookupVersion_write_ne _ _ _ _ hvne⟩
  · exact ⟨lookupVersion_write_ne _ _ _ _ hvne,
      lookupVersion_write_ne _ _ _ _ hvne⟩
  · exact ⟨lookupVersion_write_ne _ _ _ _ hvne,
      lookupVersion_write_ne _ _ _ _ hvne⟩

/-- Witness for `main_run_preserves_registered_artifacts`: a full
successful run over a registry holding version 1 leaves version 1's
artifacts untouched. -/
theorem main_run_preserves_registered_artifacts_witness :
    2 ∉ ((⟨[(1, 5)], [(1, 6)], none, none, [], []⟩ : Disk).models.map Prod.fst) ∧
    lookupVersion
      ((main_run ⟨[], [], 11, 12, 13, 1, fun _ => false⟩
        ⟨[(1, 5)], [(1, 6)], none, none, [], []⟩).1).models 1 =
      lookupVersion (⟨[(1, 5)], [(1, 6)], none, none, [], []⟩ : Disk).models 1 ∧
    lookupVersion
      ((main_run ⟨[], [], 11, 12, 13, 1, fun _ => false⟩
        ⟨[(1, 5)], [(1, 6)], none, none, [], []⟩).1).vectorizers 1 =
      lookupVersion
        (⟨[(1, 5)], [(1, 6)], none, none, [], []⟩ : Disk).vectorizers 1 :=
  main_run_preserves_registered_artifacts
    ⟨[], [], 11, 12, 13, 1, fun _ => false⟩
    ⟨[(1, 5)], [(1, 6)], none, none, [], []⟩ 1 (by decide)

theorem main_run_pointer_of_persist_fail (env : MainEnv) (disk : Disk)
    (h : env.failAt .persistMetrics = true) :
    ((main_run env disk).1).pointer = disk.pointer := by
  unfold main_run
  split_ifs
  all_goals rfl

theorem main_run_disk_of_early_fail (env : MainEnv) (disk : Disk)
    (h : env.failAt .resolve = true ∨ env.failAt .loadData = true ∨
      env.failAt .loadFeedback = true ∨ env.failAt .combine = true ∨
      env.failAt .fitModel = true ∨ env.failAt .register = true) :
    (main_run env disk).1 = disk := by
  unfold main_run
  split_ifs with h1 h0 h2 h3 h4 h5 h6 h7 h8
  · rfl
  · rfl
  · rfl
  · rfl
  · rfl
  · rfl
  · rfl
  all_goals
    rcases h with hf | hf | hf | hf | hf | hf
  all_goals
    first
      | exact absurd hf h1
      | exact absurd hf h2
      | exact absurd hf h3
      | exact absurd hf h4
      | exact absurd hf h5
      | exact absurd hf h6

theorem main_run_completed (env : MainEnv) (disk : Disk) (n : ℕ)
    (hn : (main_run env disk).2 = .completed n) :
    n = get_current_model_version_retrain disk + 1 ∧
    (main_run env disk).1 =
      promote_step n (persist_metrics_step n env.newMetrics
        (register_step n env.newModel env.newVec disk)) := by
  revert hn
  unfold main_run
  split_ifs
  · exact fun hn => nomatch hn
  · exact fun hn => nomatch hn
  · exact fun hn => nomatch hn
  · exact fun hn => nomatch hn
  · exact fun hn => nomatch hn
  · exact fun hn => nomatch hn
  · exact fun hn => nomatch hn
  · exact fun hn => nomatch hn
  · exact fun hn => nomatch hn
  · intro hn
    injection hn with h
    subst h
    exact ⟨rfl, rfl⟩

theorem main_run_promoted (env : MainEnv) (disk : Disk)
    (hp : ((main_run env disk).1).pointer ≠ disk.pointer) :
    lookupVersion ((main_run env disk).1).metrics
        (get_current_model_version_retrain disk + 1) = some env.newMetrics ∧
    lookupVersion ((main_run env disk).1).models
        (get_current_model_version_retrain disk + 1) = some env.newModel := by
  revert hp
  unfold main_run
  split_ifs
  · exact fun hp => absurd rfl hp
  · exact fun hp => absurd rfl hp
  · exact fun hp => absurd rfl hp
  · exact fun hp => absurd rfl hp
  · exact fun hp => absurd rfl hp
  · exact fun hp => absurd rfl hp
  · exact fun hp => absurd rfl hp
  · exact fun hp => absurd rfl hp
  · exact fun hp => absurd rfl hp
  · exact fun _ =>
      ⟨lookupVersion_write_self _ _ _, lookupVersion_write_self _ _ _⟩

/-- C5: the commit of a retraining run is register → persist metrics →
promote, executed last: a completed run's final state is exactly the
promote of the metrics-persist of the register of the pre-run state; if
metrics persistence fails the pointer is never changed (the new version is
not promoted); and a failure at any stage up to and including the artifact
write leaves the whole persisted state untouched, so the prior current
version pointer survives every failure. -/
theorem main_run_commit_sequence (env : MainEnv) (disk : Disk) :
    (env.failAt .persistMetrics = true →
      ((main_run env disk).1).pointer = disk.pointer) ∧
    ((env.failAt .resolve = true ∨ env.failAt .loadData = true ∨
      env.failAt .loadFeedback = true ∨ env.failAt .combine = true ∨
      env.failAt .fitModel = true ∨ env.failAt .register = true) →
      (main_run env disk).1 = disk) ∧
    (∀ n, (main_run env disk).2 = .completed n →
      n = get_current_model_version_retrain disk + 1 ∧
      (main_run env disk).1 =
        promote_step n (persist_metrics_step n env.newMetrics
          (register_step n env.newModel env.newVec disk))) ∧
    (((main_run env disk).1).pointer ≠ disk.pointer →
      lookupVersion ((main_run env disk).1).metrics
          (get_current_model_version_retrain disk + 1) = some env.newMetrics ∧
      lookupVersion ((main_run env disk).1).models
          (get_current_model_version_retrain disk + 1) = some env.newModel) := by
  exact ⟨main_run_pointer_of_persist_fail env disk,
    main_run_disk_of_early_fail env disk,
    fun n hn => main_run_completed env disk n hn,
    main_run_promoted env disk⟩

/-- Witness for `main_run_commit_sequence`: with a metrics-persistence
fault injected, the pointer of a one-version registry is unchanged; with a
fit-stage fault, the whole state is unchanged; and a fault-free run
completes with the stated commit composition. -/
theorem main_run_commit_sequence_witness :
    ((main_run ⟨[], [], 11, 12, 13, 1,
        fun s => decide (s = Stage.persistMetrics)⟩
      ⟨[(1, 5)], [(1, 6)], some 1, none, [], []⟩).1).pointer =
      (⟨[(1, 5)], [(1, 6)], some 1, none, [], []⟩ : Disk).pointer ∧
    (main_run ⟨[], [], 11, 12, 13, 1, fun s => decide (s = Stage.fitModel)⟩
      ⟨[(1, 5)], [(1, 6)], some 1, none, [], []⟩).1 =
      ⟨[(1, 5)], [(1, 6)], some 1, none, [], []⟩ ∧
    (main_run ⟨[], [], 11, 12, 13, 1, fun _ => false⟩
      ⟨[(1, 5)], [(1, 6)], some 1, none, [], []⟩).1 =
      promote_step 2 (persist_metrics_step 2 13
        (register_step 2 11 12 ⟨[(1, 5)], [(1, 6)], some 1, none, [], []⟩)) :=
  ⟨(main_run_commit_sequence ⟨[], [], 11, 12, 13, 1,
      fun s => decide (s = Stage.persistMetrics)⟩
    ⟨[(1, 5)], [(1, 6)], some 1, none, [], []⟩).1 rfl,
   (main_run_commit_sequence ⟨[], [], 11, 12, 13, 1,
      fun s => decide (s = Stage.fitModel)⟩
    ⟨[(1, 5)], [(1, 6)], some 1, none, [], []⟩).2.1
      (Or.inr (Or.inr (Or.inr (Or.inr (Or.inl rfl))))),
   ((main_run_commit_sequence ⟨[], [], 11, 12, 13, 1, fun _ => false⟩
    ⟨[(1, 5)], [(1, 6)], some 1, none, [], []⟩).2.2.1 2 (by decide)).2⟩

theorem length_filter_or_disjoint {α : Type} (l : List α) (p q : α → Bool)
    (h : ∀ x, ¬(p x = true ∧ q x = true)) :
    (l.filter (fun x => p x || q x)).length =
      (l.filter p).length + (l.filter q).length := by
  induction l with
  | nil => rfl
  | cons a as ih =>
    cases hp : p a with
    | true =>
      have hq : q a = false := by
        cases hq : q a with
        | true => exact absurd ⟨hp, hq⟩ (h a)
        | false => rfl
      simp [List.filter_cons, hp, hq, ih]
      omega
    | false =>
      cases hq : q a with
      | true => simp [List.filter_cons, hp, hq, ih]; omega
      | false => simp [List.filter_cons, hp, hq, ih]

theorem sum_pairCount_eq_inSchema (y_true y_pred : List ℤ) (i : ℤ)
    (labels : List ℤ) (hnd : labels.Nodup) :
    (labels.map (fun j => pairCount y_true y_pred i j)).sum =
      ((y_true.zip y_pred).filter
        (fun p => decide (p.1 = i) && decide (p.2 ∈ labels))).length := by
  induction labels with
  | nil => simp [pairCount]
  | cons j rest ih =>
    have hnotmem : j ∉ rest := (List.nodup_cons.mp hnd).1
    have hrest := ih (List.nodup_cons.mp hnd).2
    have hsplit := length_filter_or_disjoint (y_true.zip y_pred)
      (fun p => decide (p.1 = i) && decide (p.2 = j))
      (fun p => decide (p.1 = i) && decide (p.2 ∈ rest))
      (by
        intro x hx
        rcases hx with ⟨h1, h2⟩
        rw [Bool.and_eq_true, decide_eq_true_eq, decide_eq_true_eq] at h1 h2
        exact hnotmem (h1.2 ▸ h2.2))
    have hcong : ((y_true.zip y_pred).filter
        (fun p => decide (p.1 = i) && decide (p.2 ∈ j :: rest))).length =
        ((y_true.zip y_pred).filter
          (fun p => (decide (p.1 = i) && decide (p.2 = j)) ||
            (decide (p.1 = i) && decide (p.2 ∈ rest)))).length := by
      congr 1
      apply List.filter_congr
      intro x _
      by_cases h1 : x.1 = i <;> by_cases h2 : x.2 = j <;>
        by_cases h3 : x.2 ∈ rest <;> simp [h1, h2, h3]
    rw [List.map_cons, List.sum_cons, hrest, hcong, hsplit, pairCount]

theorem filter_fst_zip_length (y_true : List ℤ) (i : ℤ) :
    ∀ y_pred : List ℤ, y_true.length = y_pred.length →
      ((y_true.zip y_pred).filter (fun p => decide (p.1 = i))).length =
        labelCount y_true i := by
  induction y_true with
  | nil => intro y_pred _; simp [labelCount]
  | cons a as ih =>
    intro y_pred hlen
    cases y_pred with
    | nil => simp at hlen
    | cons b bs =>
      have hlen' : as.length = bs.length := by
        simpa using hlen
      by_cases ha : a = i
      · simp [List.zip_cons_cons, List.filter_cons, labelCount, ha,
          ih bs hlen', labelCount]
      · simp [List.zip_cons_cons, List.filter_cons, labelCount, ha,
          ih bs hlen', labelCount]

theorem filter_and_eq_filter_of_mem (y_true y_pred : List ℤ) (i : ℤ)
    (labels : List ℤ) (hp : ∀ p ∈ y_pred, p ∈ labels) :
    (y_true.zip y_pred).filter
        (fun p => decide (p.1 = i) && decide (p.2 ∈ labels)) =
      (y_true.zip y_pred).filter (fun p => decide (p.1 = i)) := by
  apply List.filter_congr
  intro x hx
  have hmem : x.2 ∈ y_pred := (List.of_mem_zip hx).2
  simp [hp x.2 hmem]

theorem pairCount_le_labelCount (y_true : List ℤ) (i j : ℤ) :
    ∀ y_pred : List ℤ, pairCount y_true y_pred i j ≤ labelCount y_true i := by
  induction y_true with
  | nil => intro y_pred; simp [pairCount, labelCount]
  | cons a as ih =>
    intro y_pred
    cases y_pred with
    | nil => simp [pairCount, labelCount]
    | cons b bs =>
      have := ih bs
      by_cases ha : a = i
      · by_cases hb : b = j
        · simp [pairCount, labelCount, List.zip_cons_cons, List.filter_cons,
            ha, hb] at this ⊢
          omega
        · simp [pairCount, labelCount, List.zip_cons_cons, List.filter_cons,
            ha, hb] at this ⊢
          omega
      · have hnab : ¬(a = i ∧ b = j) := fun hc => ha hc.1
        simp [pairCount, labelCount, List.zip_cons_cons, List.filter_cons,
          ha, hnab] at this ⊢
        exact this

theorem per_class_zero_support (y_true y_pred : List ℤ) (i : ℤ)
    (h0 : labelCount y_true i = 0) :
    sk_precision y_true y_pred i = 0 ∧ sk_recall y_true y_pred i = 0 ∧
      sk_f1 y_true y_pred i = 0 := by
  have htp : pairCount y_true y_pred i i = 0 :=
    Nat.le_zero.mp (h0 ▸ pairCount_le_labelCount y_true i i y_pred)
  have hprec : sk_precision y_true y_pred i = 0 := by
    unfold sk_precision
    split_ifs with h
    · rfl
    · simp [htp]
  have hrec : sk_recall y_true y_pred i = 0 := by
    unfold sk_recall
    simp [h0]
  refine ⟨hprec, hrec, ?_⟩
  unfold sk_f1
  simp [hprec, hrec]


theorem schemaLabels_nodup (n : ℕ) : (schemaLabels n).Nodup :=
  (List.nodup_range n).map (fun a b h => Int.ofNat.inj h)

/-- C7 counterexample: `calculate_metrics` with a predicted label outside
the schema (`y_true = [0]`, `y_pred = [7]`, two schema labels): the sample
is dropped from the confusion matrix, whose first row sums to 0, while the
reported support of the first label is 1 — a row sum differing from that
label's support. -/
theorem confusion_row_sum_support_cex :
    (calculate_metrics [0] [7] ["A", "B"]).confusion_matrix = [[0, 0], [0, 0]] ∧
    (calculate_metrics [0] [7] ["A", "B"]).per_class.map (fun p => p.2.support) =
      [1, 0] ∧
    ((0 : ℕ) + 0) ≠ 1 := by
  refine ⟨?_, ?_, by decide⟩ <;> decide

/-- C7 (amended): for equal-length label vectors the confusion matrix of
`calculate_metrics` is square of size `len(label_schema)`, ordered by
schema index with true labels as rows and predicted labels as columns, and
per-class precision/recall/F1/support are present for every schema label,
with all-zero values at zero support; row `i` sums to that label's support
PROVIDED every predicted label lies in the schema — a prediction outside
`range(len(label_schema))` is dropped from the matrix but still counted in
support. -/
theorem calculate_metrics_confusion_invariants (y_true y_pred : List ℤ)
    (names : List String) (hlen : y_true.length = y_pred.length)
    (hpred : ∀ p ∈ y_pred, p ∈ schemaLabels names.length) :
    (calculate_metrics y_true y_pred names).confusion_matrix.length =
      names.length ∧
    (∀ row ∈ (calculate_metrics y_true y_pred names).confusion_matrix,
      row.length = names.length) ∧
    (calculate_metrics y_true y_pred names).per_class.length = names.length ∧
    (∀ i : ℕ, i < names.length →
      ((calculate_metrics y_true y_pred names).confusion_matrix)[i]? =
        some ((schemaLabels names.length).map
          (fun j => pairCount y_true y_pred (i : ℤ) j)) ∧
      ((schemaLabels names.length).map
          (fun j => pairCount y_true y_pred (i : ℤ) j)).sum =
        labelCount y_true (i : ℤ) ∧
      ((calculate_metrics y_true y_pred names).per_class)[i]? =
        (names[i]?).map (fun nm =>
          (nm, ⟨sk_precision y_true y_pred (i : ℤ),
                sk_recall y_true y_pred (i : ℤ),
                sk_f1 y_true y_pred (i : ℤ),
                labelCount y_true (i : ℤ)⟩)) ∧
      (labelCount y_true (i : ℤ) = 0 →
        sk_precision y_true y_pred (i : ℤ) = 0 ∧
        sk_recall y_true y_pred (i : ℤ) = 0 ∧
        sk_f1 y_true y_pred (i : ℤ) = 0)) := by
  refine ⟨?_, ?_, ?_, ?_⟩
  · simp [calculate_metrics, sk_confusion_matrix, schemaLabels]
  · intro row hrow
    simp only [calculate_metrics, sk_confusion_matrix, List.mem_map] at hrow
    obtain ⟨a, _, ha⟩ := hrow
    simp [← ha, schemaLabels]
  · simp [calculate_metrics]
  · intro i hi
    refine ⟨?_, ?_, ?_, fun h0 => per_class_zero_support y_true y_pred _ h0⟩
    · simp only [calculate_metrics, sk_confusion_matrix, schemaLabels,
        List.getElem?_map, List.getElem?_range hi, Option.map_some]
      rfl
    · rw [sum_pairCount_eq_inSchema y_true y_pred _ _
          (schemaLabels_nodup names.length),
        filter_and_eq_filter_of_mem y_true y_pred _ _ hpred,
        filter_fst_zip_length y_true _ y_pred hlen]
    · simp only [calculate_metrics, ← List.get?_eq_getElem?, List.get?_map,
        List.get?_enum, Option.map_map]
      cases hname : names.get? i with
      | none => rfl
      | some nm => rfl

/-- Witness for `calculate_metrics_confusion_invariants`: the 3-sample,
two-label evaluation `y_true = [0, 1, 1]`, `y_pred = [0, 1, 0]`. -/
theorem calculate_metrics_confusion_invariants_witness :
    (calculate_metrics [0, 1, 1] [0, 1, 0] ["A", "B"]).confusion_matrix.length
      = 2 :=
  (calculate_metrics_confusion_invariants [0, 1, 1] [0, 1, 0] ["A", "B"] rfl
    (by decide)).1


/-- C8 counterexample: with `current_version.txt` set to 5 but only version
3's artifacts on disk, the retraining script's resolver returns 3 — it
never reads the pointer — while the API's resolver returns 5. The claim
that resolve_current_version returns the pointer value whenever the
pointer is set fails for the retraining script's copy of the resolver. -/
theorem resolver_ignores_pointer_cex :
    get_current_model_version_retrain ⟨[(3, 0)], [], some 5, none, [], []⟩ = 3 ∧
    get_current_model_version_api ⟨[(3, 0)], [], some 5, none, [], []⟩ =
      some 5 ∧
    (3 : ℕ) ≠ 5 := by
  refine ⟨rfl, rfl, by decide⟩

/-- C8 (amended): the API's resolver behaves as claimed — pointer value
when set, else maximum scanned artifact version, else `None`
(`NotFound`), with `None` on an empty registry and 1 after the baseline
run stores version 1 (via the scan: the baseline writes no pointer). The
retraining script's resolver, however, ignores the pointer entirely: it
always returns the maximum scanned version, with sentinel 0 (treated as
no-baseline) when no artifacts exist. -/
theorem resolve_current_version_spec :
    (∀ (disk : Disk) (v : ℕ), disk.pointer = some v →
      get_current_model_version_api disk = some v) ∧
    (∀ disk : Disk, disk.pointer = none →
      get_current_model_version_api disk = (disk.models.map Prod.fst).max?) ∧
    get_current_model_version_api Disk.empty = none ∧
    (∀ m vec mb : Blob, ∀ nms : List String,
      get_current_model_version_api (baseline_save m vec mb nms Disk.empty) =
        some 1) ∧
    (∀ (disk : Disk) (p : Option ℕ),
      get_current_model_version_retrain { disk with pointer := p } =
        get_current_model_version_retrain disk) ∧
    (∀ disk : Disk, disk.models = [] →
      get_current_model_version_retrain disk = 0) := by
  refine ⟨?_, ?_, rfl, ?_, ?_, ?_⟩
  · intro disk v h
    simp [get_current_model_version_api, h]
  · intro disk h
    simp [get_current_model_version_api, h]
  · intro m vec mb nms
    rfl
  · intro disk p
    rfl
  · intro disk h
    simp [get_current_model_version_retrain, h]

/-- Witness for `resolve_current_version_spec`: a set pointer wins for the
API resolver; the empty registry scans to the 0 sentinel for the
retraining resolver. -/
theorem resolve_current_version_spec_witness :
    get_current_model_version_api ⟨[(3, 0)], [], some 7, none, [], []⟩ =
      some 7 ∧
    get_current_model_version_retrain Disk.empty = 0 :=
  ⟨resolve_current_version_spec.1 ⟨[(3, 0)], [], some 7, none, [], []⟩ 7 rfl,
   resolve_current_version_spec.2.2.2.2.2 Disk.empty rfl⟩


end HumanLoopML
